import Mathlib

/-!
Shallow embedding of `src/script.js` (a browser CRUD client for a movie
catalog).  JavaScript strings are modelled by Lean `String`; `undefined`
values by `Option`; numbers by `Int` with `NaN` folded into `none`
wherever the code immediately coerces `NaN` to a falsy/absent value.
Each event handler becomes a pure function from its inputs (current
cache, user-prompt results, server response) to a result record holding
the new cache, what was re-rendered, the error message shown, and the
request that was issued (if any).
-/

namespace MovieApp

/-- JavaScript `a || d` for a string `a` that is never `undefined`:
the empty string is falsy. -/
def jsOrS (s d : String) : String :=
  if s = "" then d else s

/-- JavaScript `a || d` for a string `a` that may be `undefined`
(modelled by `Option String`): `undefined` and `""` are falsy. -/
def jsOrOptS (s : Option String) (d : String) : String :=
  match s with
  | none => d
  | some s => if s = "" then d else s

/-- JavaScript `String.prototype.toLowerCase`, character by character. -/
def jsToLower (s : String) : String :=
  ⟨s.data.map Char.toLower⟩

/-- JavaScript `String.prototype.trim`: drop whitespace at both ends. -/
def jsTrim (s : String) : String :=
  ⟨((s.data.dropWhile Char.isWhitespace).reverse.dropWhile Char.isWhitespace).reverse⟩

/-- Does `needle` occur at the very start of `hay`?  (Loop behind
JavaScript `String.prototype.includes`.) -/
def prefixMatch : List Char → List Char → Bool
  | [], _ => true
  | _ :: _, [] => false
  | a :: as, b :: bs => a = b && prefixMatch as bs

/-- Does `needle` occur contiguously anywhere in `hay`? -/
def subMatch (needle : List Char) : List Char → Bool
  | [] => prefixMatch needle []
  | b :: bs => prefixMatch needle (b :: bs) || subMatch needle bs

/-- JavaScript `s.includes(sub)`. -/
def jsIncludes (s sub : String) : Bool :=
  subMatch sub.data s.data

/-- `needle` occurs as a contiguous substring of `hay` (specification
form of `jsIncludes`). -/
def SubstrOf (needle hay : String) : Prop :=
  ∃ pre post, hay.data = pre ++ needle.data ++ post

/-- Leading decimal digits of `cs`, or `none` when there are none
(JavaScript `parseInt` returning `NaN`). -/
def parseDigits (cs : List Char) : Option Nat :=
  let ds := cs.takeWhile Char.isDigit
  if ds = [] then none
  else some (ds.foldl (fun acc c => acc * 10 + (c.toNat - 48)) 0)

/-- JavaScript `parseInt(s, 10)`: skip leading whitespace, optional
sign, then leading digits; `none` models `NaN`. -/
def jsParseInt (s : String) : Option Int :=
  match s.data.dropWhile Char.isWhitespace with
  | '-' :: rest => (parseDigits rest).map (fun n => -(n : Int))
  | '+' :: rest => (parseDigits rest).map (fun n => (n : Int))
  | rest => (parseDigits rest).map (fun n => (n : Int))

/-- JavaScript `n || undefined` on a number that may already be
`NaN`/`undefined`: `0` and `NaN` become `undefined`. -/
def jsFalsyNum (y : Option Int) : Option Int :=
  match y with
  | none => none
  | some n => if n = 0 then none else some n

/-- The sole entity of the catalog.  `id` is server-assigned and may be
absent (`undefined`); `title`, `year`, `genre` may each be absent. -/
structure Movie where
  id : Option Nat
  title : Option String
  year : Option Int
  genre : Option String
deriving DecidableEq

/-- Outcome of a `fetch` round-trip: decoded payload on a 2xx status,
or the non-success numeric status. -/
inductive Resp (α : Type) where
  | success (payload : α)
  | failure (status : Nat)
deriving DecidableEq

/-- `allMovies = allMovies.map(m => (m.id === id ? updated : m))`
(the cache step after a successful PATCH, script.js line 93). -/
def cacheUpdate (cache : List Movie) (id : Option Nat) (updated : Movie) : List Movie :=
  cache.map (fun m => if m.id = id then updated else m)

/-- `allMovies.push(created)` (the cache step after a successful POST,
script.js line 151). -/
def cachePush (cache : List Movie) (created : Movie) : List Movie :=
  cache ++ [created]

/-- `allMovies = allMovies.filter(m => m.id !== id)` (the cache step
after a successful DELETE, script.js line 105). -/
def removeById (cache : List Movie) (id : Option Nat) : List Movie :=
  cache.filter (fun m => m.id ≠ id)

/-- The row predicate inside `filterMovies`: lowercased title or genre
(missing field read as the empty string) contains the already-lowercased query. -/
def movieMatches (q : String) (m : Movie) : Bool :=
  jsIncludes (jsToLower (jsOrOptS m.title "")) q ||
    jsIncludes (jsToLower (jsOrOptS m.genre "")) q

/-- `filterMovies(query)` from script.js lines 112-120, with the global
`allMovies` passed explicitly; `q` is the trimmed, lowercased query. -/
def filterMovies (allMovies : List Movie) (query : String) : List Movie :=
  if jsToLower (jsTrim (jsOrS query "")) = "" then allMovies
  else allMovies.filter (movieMatches (jsToLower (jsTrim (jsOrS query ""))))

/-- The year fragment of a rendered row: the year number, or the
fallback marker `N/A` when the year is absent or zero. -/
def yearText : Option Int → String
  | none => "N/A"
  | some n => if n = 0 then "N/A" else toString n

/-- One rendered movie row: the bolded title text, the
`(year) - genre` suffix, and the targets captured by the two
button click handlers. -/
structure MovieRow where
  titleText : String
  metaText : String
  editTarget : Option Nat
  deleteTarget : Option Nat
deriving DecidableEq

/-- The DOM children `renderMovies` leaves inside `#movie-list`:
either the single no-results paragraph or one row per movie. -/
inductive RenderItem where
  | noResults
  | row (r : MovieRow)
deriving DecidableEq

/-- Projection of one movie to its row (script.js lines 38-64). -/
def renderRow (m : Movie) : MovieRow :=
  { titleText := jsOrOptS m.title "(Untitled)"
    metaText := " (" ++ yearText m.year ++ ") - " ++ jsOrOptS m.genre "Unknown"
    editTarget := m.id
    deleteTarget := m.id }

/-- `renderMovies(moviesToDisplay)` from script.js lines 31-66, as the
list of children it produces. -/
def renderMovies (moviesToDisplay : List Movie) : List RenderItem :=
  if moviesToDisplay = [] then [RenderItem.noResults]
  else moviesToDisplay.map (fun m => RenderItem.row (renderRow m))

/-- Number of Edit/Delete action triggers in a rendered list: each
movie row carries exactly two buttons, the placeholder none. -/
def triggerCount (items : List RenderItem) : Nat :=
  items.foldl
    (fun n it => match it with
      | RenderItem.noResults => n
      | RenderItem.row _ => n + 2) 0

/-- Body of the PATCH request built by `editMoviePrompt`. -/
structure EditPayload where
  title : String
  year : Option Int
  genre : String
deriving DecidableEq

/-- Observable outcome of one activation of the Edit trigger. -/
structure EditResult where
  allMovies : List Movie
  rendered : Option (List RenderItem)
  errorShown : Option String
  requestSent : Option EditPayload
  promptsShown : Nat
deriving DecidableEq

/-- `editMoviePrompt` from script.js lines 69-97.  `pTitle`, `pYear`,
`pGenre` are the three `window.prompt` results (`none` = user pressed
Cancel); `resp` is the PATCH outcome; `searchValue` is
`searchInput.value` at re-render time. -/
def editMoviePrompt (cache : List Movie) (searchValue : String) (id : Option Nat)
    (pTitle pYear pGenre : Option String) (resp : Resp Movie) : EditResult :=
  if id = none then
    { allMovies := cache, rendered := none,
      errorShown := some "Cannot edit: missing id",
      requestSent := none, promptsShown := 0 }
  else
    match pTitle with
    | none =>
      { allMovies := cache, rendered := none, errorShown := none,
        requestSent := none, promptsShown := 1 }
    | some title =>
      match pYear with
      | none =>
        { allMovies := cache, rendered := none, errorShown := none,
          requestSent := none, promptsShown := 2 }
      | some yearInput =>
        let year : Option Int := jsFalsyNum (jsParseInt yearInput)
        let genre : String := jsOrOptS pGenre ""
        let payload : EditPayload :=
          ⟨jsTrim (jsOrS title ""), year, jsTrim (jsOrS genre "")⟩
        match resp with
        | Resp.failure s =>
          { allMovies := cache, rendered := none,
            errorShown := some ("Update failed: " ++ toString s),
            requestSent := some payload, promptsShown := 3 }
        | Resp.success updated =>
          let c := cacheUpdate cache id updated
          { allMovies := c,
            rendered := some (renderMovies (filterMovies c searchValue)),
            errorShown := none,
            requestSent := some payload, promptsShown := 3 }

/-- Observable outcome of one activation of the Delete trigger. -/
structure DeleteResult where
  allMovies : List Movie
  rendered : Option (List RenderItem)
  errorShown : Option String
  requestSent : Bool
deriving DecidableEq

/-- `deleteMovie` from script.js lines 99-110.  `confirmed` is the
`confirm(...)` answer; `resp` is the DELETE outcome. -/
def deleteMovie (cache : List Movie) (id : Option Nat) (confirmed : Bool)
    (resp : Resp Unit) : DeleteResult :=
  if confirmed then
    match resp with
    | Resp.failure s =>
      { allMovies := cache, rendered := none,
        errorShown := some ("Delete failed: " ++ toString s),
        requestSent := true }
    | Resp.success _ =>
      let c := removeById cache id
      { allMovies := c, rendered := some (renderMovies c),
        errorShown := none, requestSent := true }
  else
    { allMovies := cache, rendered := none, errorShown := none,
      requestSent := false }

/-- Body of the POST request built by the add-form handler. -/
structure CreateDraft where
  title : String
  genre : String
  year : Option Int
deriving DecidableEq

/-- Observable outcome of one add-form submission. -/
structure AddResult where
  allMovies : List Movie
  rendered : Option (List RenderItem)
  errorShown : Option String
  requestSent : Option CreateDraft
deriving DecidableEq

/-- The `addMovieForm` submit handler from script.js lines 127-159.
`titleVal`, `genreVal`, `yearVal` are the three form field values;
`resp` is the POST outcome. -/
def addMovieSubmit (cache : List Movie) (titleVal genreVal yearVal : String)
    (resp : Resp Movie) : AddResult :=
  let title := jsTrim (jsOrS titleVal "")
  let genre := jsTrim (jsOrS genreVal "")
  let year : Option Int := if yearVal = "" then none else jsParseInt yearVal
  if title = "" ∨ jsFalsyNum year = none then
    { allMovies := cache, rendered := none,
      errorShown := some "Please provide Title and Year",
      requestSent := none }
  else
    let newMovie : CreateDraft := ⟨title, genre, year⟩
    match resp with
    | Resp.failure s =>
      { allMovies := cache, rendered := none,
        errorShown := some ("Add failed: " ++ toString s),
        requestSent := some newMovie }
    | Resp.success created =>
      let c := cachePush cache created
      { allMovies := c, rendered := some (renderMovies c),
        errorShown := none, requestSent := some newMovie }

/-- All writes `showError` makes to the `#mm-error` slot, given the
report events `(time, message)`: each report writes its message at its
own time and schedules an unconditional clear exactly 5000 ms later
(script.js lines 161-173; the timer is never cancelled). -/
def slotWrites (reports : List (Nat × String)) : List (Nat × String) :=
  reports ++ reports.map (fun p => (p.1 + 5000, ""))

/-- Of two timed writes, the one taking effect later (the second wins
ties, matching its later position in the write list). -/
def laterOf (a b : Nat × String) : Nat × String :=
  if a.1 ≤ b.1 then b else a

/-- Content of the `#mm-error` slot at time `t`: the latest write not
after `t`, starting from the empty slot. -/
def slotAt (reports : List (Nat × String)) (t : Nat) : String :=
  (((slotWrites reports).filter (fun e => e.1 ≤ t)).foldl laterOf (0, "")).2

/-! ## Helper lemmas -/

theorem jsOrS_empty_default (s : String) : jsOrS s "" = s := by
  unfold jsOrS
  split
  · simp_all
  · rfl

theorem string_mk_eq_empty {l : List Char} : (⟨l⟩ : String) = "" ↔ l = [] := by
  constructor
  · intro h
    have hdata := congrArg String.data h
    simpa using hdata
  · intro h
    subst h
    rfl

theorem jsToLower_eq_empty {s : String} : jsToLower s = "" ↔ s = "" := by
  cases s with
  | mk data =>
    unfold jsToLower
    rw [string_mk_eq_empty, List.map_eq_nil_iff, string_mk_eq_empty]

theorem prefixMatch_iff {n h : List Char} :
    prefixMatch n h = true ↔ ∃ rest, h = n ++ rest := by
  induction n generalizing h with
  | nil => simp [prefixMatch]
  | cons a as ih =>
    cases h with
    | nil => simp [prefixMatch]
    | cons b bs =>
      rw [prefixMatch, Bool.and_eq_true, decide_eq_true_iff, ih]
      constructor
      · rintro ⟨hab, rest, hrest⟩
        exact ⟨rest, by simp [hab, hrest]⟩
      · rintro ⟨rest, hrest⟩
        rw [List.cons_append, List.cons.injEq] at hrest
        exact ⟨hrest.1.symm, rest, hrest.2⟩

theorem subMatch_iff {n h : List Char} :
    subMatch n h = true ↔ ∃ pre post, h = pre ++ n ++ post := by
  induction h with
  | nil =>
    rw [subMatch, prefixMatch_iff]
    constructor
    · rintro ⟨rest, hrest⟩
      have hn : n = [] ∧ rest = [] := List.append_eq_nil.mp hrest.symm
      exact ⟨[], [], by simp [hn.1]⟩
    · rintro ⟨pre, post, hp⟩
      have h2 := List.append_eq_nil.mp hp.symm
      have h3 := List.append_eq_nil.mp h2.1
      exact ⟨[], by simp [h3.2]⟩
  | cons b bs ih =>
    rw [subMatch, Bool.or_eq_true, prefixMatch_iff, ih]
    constructor
    · rintro (⟨rest, hrest⟩ | ⟨pre, post, hp⟩)
      · exact ⟨[], rest, by simpa using hrest⟩
      · exact ⟨b :: pre, post, by simp [hp]⟩
    · rintro ⟨pre, post, hp⟩
      cases pre with
      | nil => exact Or.inl ⟨post, by simpa using hp⟩
      | cons p ps =>
        rw [List.cons_append, List.cons_append, List.cons.injEq] at hp
        exact Or.inr ⟨ps, post, hp.2⟩

theorem jsIncludes_iff {s sub : String} :
    jsIncludes s sub = true ↔ SubstrOf sub s := by
  unfold jsIncludes SubstrOf
  exact subMatch_iff

theorem movieMatches_iff {q : String} {m : Movie} :
    movieMatches q m = true ↔
      SubstrOf q (jsToLower (jsOrOptS m.title "")) ∨
        SubstrOf q (jsToLower (jsOrOptS m.genre "")) := by
  unfold movieMatches
  rw [Bool.or_eq_true, jsIncludes_iff, jsIncludes_iff]

/-! ## Claims about the Filter Engine -/

/-- C3: for every cache, filtering with an empty or whitespace-only
query (one whose trim is empty) returns the cache itself, same entries
in the same order. -/
theorem filterMovies_blank_id (cache : List Movie) (query : String)
    (h : jsTrim query = "") : filterMovies cache query = cache := by
  unfold filterMovies
  rw [jsOrS_empty_default, h]
  simp [jsToLower_eq_empty]

/-- Witness for `filterMovies_blank_id`: a concrete whitespace-only
query on a concrete one-movie cache. -/
theorem filterMovies_blank_id_witness :
    jsTrim "   " = "" ∧
      filterMovies [⟨some 1, some "Dune", some 2021, some "Sci-Fi"⟩] "   " =
        [⟨some 1, some "Dune", some 2021, some "Sci-Fi"⟩] :=
  ⟨by decide, filterMovies_blank_id _ "   " (by decide)⟩

/-- C2: for every cache and query that is non-empty after trimming, an
entry is in the filtered result iff the lowercased (trimmed) query is a
substring of its lowercased title or of its lowercased genre, a missing
title or genre read as the empty string; and the result is a stable
ordered sub-sequence of the cache. -/
theorem filterMovies_nonempty_spec (cache : List Movie) (query : String)
    (h : jsTrim query ≠ "") :
    (∀ m, m ∈ filterMovies cache query ↔
      m ∈ cache ∧
        (SubstrOf (jsToLower (jsTrim query)) (jsToLower (jsOrOptS m.title "")) ∨
          SubstrOf (jsToLower (jsTrim query)) (jsToLower (jsOrOptS m.genre "")))) ∧
      List.Sublist (filterMovies cache query) cache := by
  have hq : ¬ jsToLower (jsTrim (jsOrS query "")) = "" := by
    rw [jsOrS_empty_default, jsToLower_eq_empty]
    exact h
  constructor
  · intro m
    unfold filterMovies
    rw [if_neg hq, List.mem_filter, movieMatches_iff, jsOrS_empty_default]
  · unfold filterMovies
    rw [if_neg hq]
    exact List.filter_sublist _

/-- Witness for `filterMovies_nonempty_spec`: the spec scenario, query
`"sci"` on the two-movie cache, picking out exactly the Sci-Fi entry. -/
theorem filterMovies_nonempty_spec_witness :
    jsTrim "sci" ≠ "" ∧
      ((⟨some 1, some "Dune", some 2021, some "Sci-Fi"⟩ : Movie) ∈
          filterMovies [⟨some 1, some "Dune", some 2021, some "Sci-Fi"⟩,
            ⟨some 2, some "Amelie", some 2001, some "Romance"⟩] "sci" ↔
        (⟨some 1, some "Dune", some 2021, some "Sci-Fi"⟩ : Movie) ∈
            [⟨some 1, some "Dune", some 2021, some "Sci-Fi"⟩,
              ⟨some 2, some "Amelie", some 2001, some "Romance"⟩] ∧
          (SubstrOf (jsToLower (jsTrim "sci"))
              (jsToLower (jsOrOptS (some "Dune") "")) ∨
            SubstrOf (jsToLower (jsTrim "sci"))
              (jsToLower (jsOrOptS (some "Sci-Fi") "")))) ∧
      List.Sublist
        (filterMovies [⟨some 1, some "Dune", some 2021, some "Sci-Fi"⟩,
          ⟨some 2, some "Amelie", some 2001, some "Romance"⟩] "sci")
        [⟨some 1, some "Dune", some 2021, some "Sci-Fi"⟩,
          ⟨some 2, some "Amelie", some 2001, some "Romance"⟩] :=
  ⟨by decide,
    (filterMovies_nonempty_spec _ "sci" (by decide)).1 _,
    (filterMovies_nonempty_spec _ "sci" (by decide)).2⟩

/-! ## Claims about the Local Cache mutations -/

/-- C1 counterexample: the claimed upsert semantics fails on the code.
On the update path (`allMovies.map`), a movie whose id is absent from
the cache is NOT appended and the size does not grow; on the create
path (`push`), a movie whose id is already present is appended anyway,
so the size is not preserved. -/
theorem cacheUpdate_not_upsert_cex :
    cacheUpdate [⟨some 1, some "A", none, none⟩] (some 2)
        ⟨some 2, some "B", none, none⟩ =
      [⟨some 1, some "A", none, none⟩] ∧
    ¬ ((cacheUpdate [⟨some 1, some "A", none, none⟩] (some 2)
          ⟨some 2, some "B", none, none⟩).length =
        ([⟨some 1, some "A", none, none⟩] : List Movie).length + 1 ∧
        (⟨some 2, some "B", none, none⟩ : Movie) ∈
          cacheUpdate [⟨some 1, some "A", none, none⟩] (some 2)
            ⟨some 2, some "B", none, none⟩) ∧
    (cachePush [⟨some 1, some "A", none, none⟩]
        ⟨some 1, some "C", none, none⟩).length =
      ([⟨some 1, some "A", none, none⟩] : List Movie).length + 1 := by
  decide

/-- C1 amended: after update the cache entry whose id matches is
replaced in place and the size never changes — when no entry matches,
the cache is unchanged and nothing is appended; after create the
created movie is always appended and the size always grows by one,
even when an entry with the same id is already present. -/
theorem cache_update_push_spec :
    (∀ (cache : List Movie) (id : Option Nat) (m : Movie),
        (cacheUpdate cache id m).length = cache.length) ∧
    (∀ (cache : List Movie) (id : Option Nat) (m : Movie),
        (∀ x ∈ cache, x.id ≠ id) → cacheUpdate cache id m = cache) ∧
    (∀ (cache : List Movie) (id : Option Nat) (m : Movie),
        (∃ x ∈ cache, x.id = id) → m ∈ cacheUpdate cache id m) ∧
    (∀ (cache : List Movie) (id : Option Nat) (m x : Movie),
        x ∈ cache → x.id ≠ id → x ∈ cacheUpdate cache id m) ∧
    (∀ (cache : List Movie) (m : Movie),
        (cachePush cache m).length = cache.length + 1 ∧ m ∈ cachePush cache m) := by
  refine ⟨?_, ?_, ?_, ?_, ?_⟩
  · intro cache id m
    simp [cacheUpdate]
  · intro cache id m h
    induction cache with
    | nil => rfl
    | cons c cs ih =>
      have hc : ¬ c.id = id := h c (List.mem_cons_self c cs)
      have hcs : ∀ x ∈ cs, x.id ≠ id := fun x hx => h x (List.mem_cons_of_mem c hx)
      simp only [cacheUpdate, List.map_cons, if_neg hc]
      have htail := ih hcs
      simp only [cacheUpdate] at htail
      rw [htail]
  · rintro cache id m ⟨x, hx, hxid⟩
    unfold cacheUpdate
    rw [List.mem_map]
    exact ⟨x, hx, by rw [if_pos hxid]⟩
  · intro cache id m x hx hne
    unfold cacheUpdate
    rw [List.mem_map]
    exact ⟨x, hx, by rw [if_neg hne]⟩
  · intro cache m
    constructor
    · simp [cachePush]
    · simp [cachePush]

/-- Witness for `cache_update_push_spec`: concrete one-movie caches
exercising the absent-id and present-id update cases and the push. -/
theorem cache_update_push_spec_witness :
    (cacheUpdate [⟨some 1, some "A", none, none⟩] (some 2)
        ⟨some 2, some "B", none, none⟩).length =
      ([⟨some 1, some "A", none, none⟩] : List Movie).length ∧
    cacheUpdate [⟨some 1, some "A", none, none⟩] (some 2)
        ⟨some 2, some "B", none, none⟩ =
      [⟨some 1, some "A", none, none⟩] ∧
    (⟨some 1, some "B", none, none⟩ : Movie) ∈
      cacheUpdate [⟨some 1, some "A", none, none⟩] (some 1)
        ⟨some 1, some "B", none, none⟩ ∧
    (cachePush [⟨some 1, some "A", none, none⟩]
        ⟨some 1, some "C", none, none⟩).length =
      ([⟨some 1, some "A", none, none⟩] : List Movie).length + 1 :=
  ⟨cache_update_push_spec.1 _ _ _,
    cache_update_push_spec.2.1 _ _ _ (by decide),
    cache_update_push_spec.2.2.1 _ _ _ (by decide),
    (cache_update_push_spec.2.2.2.2 _ _).1⟩

theorem removeById_length_of_nodup (cache : List Movie) (id : Option Nat)
    (hnd : (cache.map Movie.id).Nodup) (hmem : ∃ x ∈ cache, x.id = id) :
    (removeById cache id).length + 1 = cache.length := by
  induction cache with
  | nil => simp at hmem
  | cons c cs ih =>
    rw [List.map_cons, List.nodup_cons] at hnd
    by_cases hc : c.id = id
    · have hrest : ∀ x ∈ cs, ¬ x.id = id := by
        intro x hx hxid
        exact hnd.1 (by rw [hc, ← hxid]; exact List.mem_map_of_mem Movie.id hx)
      have hdrop : removeById (c :: cs) id = removeById cs id := by
        simp [removeById, List.filter_cons, hc]
      have hall : removeById cs id = cs := by
        simp only [removeById]
        rw [List.filter_eq_self]
        intro a ha
        simpa using hrest a ha
      rw [hdrop, hall]
      simp
    · obtain ⟨x, hx, hxid⟩ := hmem
      have hxcs : x ∈ cs := by
        rcases List.mem_cons.mp hx with hxc | hxcs
        · exact absurd (hxc ▸ hxid) hc
        · exact hxcs
      have hkeep : removeById (c :: cs) id = c :: removeById cs id := by
        simp [removeById, List.filter_cons, hc]
      rw [hkeep]
      have := ih hnd.2 ⟨x, hxcs, hxid⟩
      simp only [List.length_cons]
      omega

/-- C4 counterexample: the per-delete size drop is not always exactly
one.  With two cache entries sharing `id = 1`, a confirmed, successful
delete of `id = 1` removes both, shrinking the cache from 2 to 0. -/
theorem deleteMovie_duplicate_cex :
    (∃ x ∈ ([⟨some 1, some "A", none, none⟩,
        ⟨some 1, some "B", none, none⟩] : List Movie), x.id = some 1) ∧
    ([⟨some 1, some "A", none, none⟩,
        ⟨some 1, some "B", none, none⟩] : List Movie).length = 2 ∧
    (deleteMovie [⟨some 1, some "A", none, none⟩,
        ⟨some 1, some "B", none, none⟩] (some 1) true
        (Resp.success ())).allMovies.length = 0 := by
  decide

/-- C4 amended: after a confirmed delete whose request succeeds, no
entry with the deleted id remains; the size drops by exactly one when
the cache ids are duplicate-free and an entry with that id was present
(in general every entry with that id is dropped); the cache is
unchanged when no entry had that id; and the full unfiltered new cache
is what gets re-rendered. -/
theorem deleteMovie_spec :
    (∀ (cache : List Movie) (id : Option Nat),
        ∀ x ∈ (deleteMovie cache id true (Resp.success ())).allMovies,
          x.id ≠ id) ∧
    (∀ (cache : List Movie) (id : Option Nat),
        (cache.map Movie.id).Nodup → (∃ x ∈ cache, x.id = id) →
        (deleteMovie cache id true (Resp.success ())).allMovies.length + 1 =
          cache.length) ∧
    (∀ (cache : List Movie) (id : Option Nat),
        (∀ x ∈ cache, x.id ≠ id) →
        (deleteMovie cache id true (Resp.success ())).allMovies = cache) ∧
    (∀ (cache : List Movie) (id : Option Nat),
        (deleteMovie cache id true (Resp.success ())).rendered =
          some (renderMovies
            (deleteMovie cache id true (Resp.success ())).allMovies)) := by
  refine ⟨?_, ?_, ?_, ?_⟩
  · intro cache id x hx
    simp only [deleteMovie, if_pos, removeById, List.mem_filter,
      decide_eq_true_eq] at hx
    exact hx.2
  · intro cache id hnd hmem
    simpa [deleteMovie] using removeById_length_of_nodup cache id hnd hmem
  · intro cache id h
    simp only [deleteMovie, if_pos, removeById]
    rw [List.filter_eq_self]
    intro a ha
    simpa using h a ha
  · intro cache id
    simp [deleteMovie]

/-- Witness for `deleteMovie_spec`: the spec scenario — delete id 2
from the two-movie cache, server success, leaving only id 1 and
re-rendering that one-row list. -/
theorem deleteMovie_spec_witness :
    (∀ x ∈ (deleteMovie [⟨some 1, some "Dune", some 2021, some "Sci-Fi"⟩,
        ⟨some 2, some "Amelie", some 2001, some "Romance"⟩] (some 2) true
        (Resp.success ())).allMovies, x.id ≠ some 2) ∧
    (deleteMovie [⟨some 1, some "Dune", some 2021, some "Sci-Fi"⟩,
        ⟨some 2, some "Amelie", some 2001, some "Romance"⟩] (some 2) true
        (Resp.success ())).allMovies.length + 1 = 2 ∧
    (deleteMovie [⟨some 1, some "Dune", some 2021, some "Sci-Fi"⟩,
        ⟨some 2, some "Amelie", some 2001, some "Romance"⟩] (some 2) true
        (Resp.success ())).rendered =
      some (renderMovies
        (deleteMovie [⟨some 1, some "Dune", some 2021, some "Sci-Fi"⟩,
          ⟨some 2, some "Amelie", some 2001, some "Romance"⟩] (some 2) true
          (Resp.success ())).allMovies) :=
  ⟨deleteMovie_spec.1 _ _,
    deleteMovie_spec.2.1 _ _ (by decide) (by decide),
    deleteMovie_spec.2.2.2 _ _⟩

/-! ## Claims about the Edit flow -/

/-- C10: activating the Edit trigger for an entity with an undefined id
reports an error immediately and returns before any prompt is shown or
any request is sent, leaving the cache unchanged (and nothing is
re-rendered). -/
theorem edit_missing_id_spec :
    ∀ (cache : List Movie) (sv : String) (p1 p2 p3 : Option String)
      (resp : Resp Movie),
      editMoviePrompt cache sv none p1 p2 p3 resp =
        { allMovies := cache, rendered := none,
          errorShown := some "Cannot edit: missing id",
          requestSent := none, promptsShown := 0 } := by
  intro cache sv p1 p2 p3 resp
  rfl

/-- C5 counterexample: cancelling the third (genre) prompt does NOT
abort the edit.  With the title and year prompts answered and the genre
prompt cancelled, a PATCH request is still issued (here it succeeds and
the cache is rewritten). -/
theorem edit_genre_cancel_cex :
    (editMoviePrompt [⟨some 1, some "T", some 1999, some "G"⟩] "" (some 1)
        (some "T2") (some "2001") none
        (Resp.success ⟨some 1, some "T2", some 2001, some ""⟩)).requestSent =
      some ⟨"T2", some 2001, ""⟩ ∧
    (editMoviePrompt [⟨some 1, some "T", some 1999, some "G"⟩] "" (some 1)
        (some "T2") (some "2001") none
        (Resp.success ⟨some 1, some "T2", some 2001, some ""⟩)).promptsShown = 3 ∧
    (editMoviePrompt [⟨some 1, some "T", some 1999, some "G"⟩] "" (some 1)
        (some "T2") (some "2001") none
        (Resp.success ⟨some 1, some "T2", some 2001, some ""⟩)).allMovies =
      [⟨some 1, some "T2", some 2001, some ""⟩] := by
  decide

/-- C5 amended: cancelling the title prompt or the year prompt aborts
the whole edit — no request is sent, no error is shown and the cache is
unchanged; cancelling the genre prompt does not abort: the edit
proceeds with the genre treated as the empty string. -/
theorem edit_cancel_spec :
    (∀ (cache : List Movie) (sv : String) (i : Nat) (p2 p3 : Option String)
        (resp : Resp Movie),
        editMoviePrompt cache sv (some i) none p2 p3 resp =
          { allMovies := cache, rendered := none, errorShown := none,
            requestSent := none, promptsShown := 1 }) ∧
    (∀ (cache : List Movie) (sv : String) (i : Nat) (t : String)
        (p3 : Option String) (resp : Resp Movie),
        editMoviePrompt cache sv (some i) (some t) none p3 resp =
          { allMovies := cache, rendered := none, errorShown := none,
            requestSent := none, promptsShown := 2 }) ∧
    (∀ (cache : List Movie) (sv : String) (i : Nat) (t y : String)
        (resp : Resp Movie),
        (editMoviePrompt cache sv (some i) (some t) (some y) none
            resp).requestSent =
          some ⟨jsTrim (jsOrS t ""), jsFalsyNum (jsParseInt y), ""⟩) := by
  refine ⟨?_, ?_, ?_⟩
  · intro cache sv i p2 p3 resp
    rfl
  · intro cache sv i t p3 resp
    rfl
  · intro cache sv i t y resp
    cases resp <;> rfl

/-! ## Claims about add-form validation and failed mutations -/

/-- C6: an add-form submission whose trimmed title is empty or whose
year field is empty is rejected before any request: the validation
message is shown, no request is issued, nothing is re-rendered and the
cache is unchanged. -/
theorem add_validation_spec :
    ∀ (cache : List Movie) (titleVal genreVal yearVal : String)
      (resp : Resp Movie),
      jsTrim titleVal = "" ∨ yearVal = "" →
      addMovieSubmit cache titleVal genreVal yearVal resp =
        { allMovies := cache, rendered := none,
          errorShown := some "Please provide Title and Year",
          requestSent := none } := by
  intro cache titleVal genreVal yearVal resp h
  rcases h with h | h
  · simp [addMovieSubmit, jsOrS_empty_default, h]
  · subst h
    simp [addMovieSubmit, jsOrS_empty_default, jsFalsyNum]

/-- Witness for `add_validation_spec`: the spec scenario — empty title
with year `"2020"` is rejected with the validation message. -/
theorem add_validation_spec_witness :
    (jsTrim "" = "" ∨ ("2020" : String) = "") ∧
      addMovieSubmit [] "" "" "2020" (Resp.failure 0) =
        { allMovies := [], rendered := none,
          errorShown := some "Please provide Title and Year",
          requestSent := none } :=
  ⟨Or.inl (by decide),
    add_validation_spec [] "" "" "2020" (Resp.failure 0) (Or.inl (by decide))⟩

/-- The add-form guard passes: the trimmed title is non-empty and the
year field parses to a truthy number (the code has a `!title || !year`
test is false). -/
def addValid (titleVal yearVal : String) : Prop :=
  ¬ (jsTrim (jsOrS titleVal "") = "" ∨
      jsFalsyNum (if yearVal = "" then none else jsParseInt yearVal) = none)

instance (titleVal yearVal : String) : Decidable (addValid titleVal yearVal) := by
  unfold addValid
  infer_instance

theorem substrOf_append_right (a b : String) : SubstrOf b (a ++ b) :=
  ⟨a.data, [], by rw [String.data_append, List.append_nil]⟩

/-- C7: a mutating operation (create, update or delete) whose request
fails with a non-success status leaves the cache exactly unchanged,
re-renders nothing, and reports a message carrying the numeric status
as a substring. -/
theorem mutation_failure_spec :
    (∀ (cache : List Movie) (t g y : String) (s : Nat),
        addValid t y →
        (addMovieSubmit cache t g y (Resp.failure s)).allMovies = cache ∧
        (addMovieSubmit cache t g y (Resp.failure s)).rendered = none ∧
        ∃ msg, (addMovieSubmit cache t g y (Resp.failure s)).errorShown =
            some msg ∧ SubstrOf (toString s) msg) ∧
    (∀ (cache : List Movie) (sv : String) (i : Nat) (t y : String)
        (g : Option String) (s : Nat),
        (editMoviePrompt cache sv (some i) (some t) (some y) g
            (Resp.failure s)).allMovies = cache ∧
        (editMoviePrompt cache sv (some i) (some t) (some y) g
            (Resp.failure s)).rendered = none ∧
        ∃ msg, (editMoviePrompt cache sv (some i) (some t) (some y) g
              (Resp.failure s)).errorShown = some msg ∧
          SubstrOf (toString s) msg) ∧
    (∀ (cache : List Movie) (i : Option Nat) (s : Nat),
        (deleteMovie cache i true (Resp.failure s)).allMovies = cache ∧
        (deleteMovie cache i true (Resp.failure s)).rendered = none ∧
        ∃ msg, (deleteMovie cache i true (Resp.failure s)).errorShown =
            some msg ∧ SubstrOf (toString s) msg) := by
  refine ⟨?_, ?_, ?_⟩
  · intro cache t g y s h
    unfold addValid at h
    refine ⟨?_, ?_, "Add failed: " ++ toString s, ?_,
      substrOf_append_right _ _⟩ <;>
      simp [addMovieSubmit, if_neg h]
  · intro cache sv i t y g s
    exact ⟨rfl, rfl, "Update failed: " ++ toString s, rfl,
      substrOf_append_right _ _⟩
  · intro cache i s
    exact ⟨rfl, rfl, "Delete failed: " ++ toString s, rfl,
      substrOf_append_right _ _⟩

/-- Witness for `mutation_failure_spec`: the spec scenario — a create
of `{title: Nope, genre: empty, year: 1999}` failing with status 500
leaves the cache unchanged and shows a message containing `500`. -/
theorem mutation_failure_spec_witness :
    addValid "Nope" "1999" ∧
    (addMovieSubmit [] "Nope" "" "1999" (Resp.failure 500)).allMovies = [] ∧
    (addMovieSubmit [] "Nope" "" "1999" (Resp.failure 500)).errorShown =
      some "Add failed: 500" ∧
    SubstrOf "500" "Add failed: 500" :=
  ⟨by decide,
    (mutation_failure_spec.1 [] "Nope" "" "1999" 500 (by decide)).1,
    by decide,
    jsIncludes_iff.mp (by decide)⟩

/-! ## Claims about the Renderer -/

/-- C8: rendering the empty sequence produces exactly the one
no-results placeholder and zero Edit/Delete triggers; rendering a
non-empty sequence produces exactly one row per entity in sequence
order, with the `(Untitled)` placeholder for a missing title and the
`N/A` / `Unknown` fallback markers for a missing year or genre. -/
theorem renderMovies_spec :
    renderMovies [] = [RenderItem.noResults] ∧
    triggerCount (renderMovies []) = 0 ∧
    (∀ ms : List Movie, ms ≠ [] →
        renderMovies ms = ms.map (fun m => RenderItem.row (renderRow m))) ∧
    (∀ m : Movie, m.title = none → (renderRow m).titleText = "(Untitled)") ∧
    (∀ m : Movie, m.year = none →
        (renderRow m).metaText = " (N/A) - " ++ jsOrOptS m.genre "Unknown") ∧
    (∀ m : Movie, m.genre = none →
        (renderRow m).metaText = " (" ++ yearText m.year ++ ") - " ++ "Unknown") := by
  refine ⟨rfl, rfl, ?_, ?_, ?_, ?_⟩
  · intro ms hms
    simp [renderMovies, hms]
  · intro m hm
    simp [renderRow, hm, jsOrOptS]
  · intro m hm
    have hconst : (" (" ++ "N/A") ++ ") - " = " (N/A) - " := by decide
    simp only [renderRow, hm, yearText]
    rw [hconst]
  · intro m hm
    simp [renderRow, hm, jsOrOptS]

/-- Witness for `renderMovies_spec`: a one-movie cache with every
optional display field missing renders as a single row with all
fallback markers. -/
theorem renderMovies_spec_witness :
    renderMovies [] = [RenderItem.noResults] ∧
    renderMovies [⟨some 1, none, none, none⟩] =
      [RenderItem.row (renderRow ⟨some 1, none, none, none⟩)] ∧
    (renderRow ⟨some 1, none, none, none⟩).titleText = "(Untitled)" ∧
    (renderRow ⟨some 1, none, none, none⟩).metaText =
      " (N/A) - " ++ jsOrOptS none "Unknown" :=
  ⟨renderMovies_spec.1,
    renderMovies_spec.2.2.1 _ (by decide),
    renderMovies_spec.2.2.2.1 _ rfl,
    renderMovies_spec.2.2.2.2.1 _ rfl⟩

/-! ## Claims about the Error Reporter -/

theorem laterOf_of_le {a b : Nat × String} (h : a.1 ≤ b.1) :
    laterOf a b = b := by
  unfold laterOf
  rw [if_pos h]

theorem foldl_laterOf_mem (l : List (Nat × String)) (a : Nat × String) :
    l.foldl laterOf a = a ∨ l.foldl laterOf a ∈ l := by
  induction l generalizing a with
  | nil => exact Or.inl rfl
  | cons e es ih =>
    rw [List.foldl_cons]
    rcases ih (laterOf a e) with h | h
    · rw [h]
      unfold laterOf
      split
      · exact Or.inr (List.mem_cons_self e es)
      · exact Or.inl rfl
    · exact Or.inr (List.mem_cons_of_mem e h)

theorem foldl_laterOf_le (l : List (Nat × String)) (a : Nat × String)
    (B : Nat) (ha : a.1 ≤ B) (hl : ∀ e ∈ l, e.1 ≤ B) :
    (l.foldl laterOf a).1 ≤ B := by
  induction l generalizing a with
  | nil => exact ha
  | cons e es ih =>
    rw [List.foldl_cons]
    refine ih (laterOf a e) ?_ (fun x hx => hl x (List.mem_cons_of_mem e hx))
    unfold laterOf
    split
    · exact hl e (List.mem_cons_self e es)
    · exact ha

/-- C9 counterexample: the slot does not always hold the most recent
error for 5 seconds.  After reports at 0 ms (`A`) and 3000 ms (`B`),
the un-cancelled timer of the first report clears the slot at 5000 ms,
only 2000 ms after `B` arrived, although the 5-second window of `B`
(3000-8000 ms) is still open. -/
theorem showError_early_clear_cex :
    3000 ≤ 5000 ∧ 5000 < 3000 + 5000 ∧
    slotAt [(0, "A"), (3000, "B")] 5000 = "" ∧ ("" : String) ≠ "B" := by
  decide

/-- C9 amended: the slot shows at most one message at a time — at any
instant it is either empty or equal to one of the reported messages —
and after the last of a burst of reports it still shows that last
message at any time before the timer of the EARLIEST report fires (every
report is within its 5-second window); the guarantee ends there, not 5
seconds after the last arrival, because `showError` never cancels the
previously scheduled clear. -/
theorem showError_spec :
    (∀ (reports : List (Nat × String)) (t : Nat),
        slotAt reports t = "" ∨
          ∃ p ∈ reports, slotAt reports t = p.2) ∧
    (∀ (rs : List (Nat × String)) (tn : Nat) (mn : String) (t : Nat),
        List.Pairwise (fun a b => a.1 < b.1) (rs ++ [(tn, mn)]) →
        (∀ e ∈ rs ++ [(tn, mn)], e.1 ≤ t) →
        (∀ e ∈ rs ++ [(tn, mn)], t < e.1 + 5000) →
        slotAt (rs ++ [(tn, mn)]) t = mn) := by
  constructor
  · intro reports t
    unfold slotAt
    rcases foldl_laterOf_mem
        ((slotWrites reports).filter (fun e => e.1 ≤ t)) (0, "") with h | h
    · rw [h]
      exact Or.inl rfl
    · have hw : (((slotWrites reports).filter (fun e => e.1 ≤ t)).foldl
          laterOf (0, "")) ∈
            reports ++ reports.map (fun p => (p.1 + 5000, "")) :=
        (List.filter_sublist _).subset h
      rcases List.mem_append.mp hw with hrep | hclr
      · exact Or.inr ⟨_, hrep, rfl⟩
      · obtain ⟨p, _, hp⟩ := List.mem_map.mp hclr
        exact Or.inl (congrArg Prod.snd hp.symm)
  · intro rs tn mn t hsort hle hwin
    have hclr : (((rs ++ [(tn, mn)]).map
        (fun p => (p.1 + 5000, ""))).filter (fun e => e.1 ≤ t)) = [] := by
      rw [List.filter_eq_nil_iff]
      intro e he
      obtain ⟨p, hp, hpe⟩ := List.mem_map.mp he
      rw [← hpe]
      simpa using Nat.not_le.mpr (hwin p hp)
    have hrep : ((rs ++ [(tn, mn)]).filter (fun e => e.1 ≤ t)) =
        rs ++ [(tn, mn)] := by
      rw [List.filter_eq_self]
      intro a ha
      simpa using hle a ha
    have hbound : ∀ e ∈ rs, e.1 ≤ tn := by
      intro e he
      have := (List.pairwise_append.mp hsort).2.2 e he (tn, mn)
        (List.mem_singleton_self _)
      exact Nat.le_of_lt this
    unfold slotAt slotWrites
    rw [List.filter_append, hclr, hrep, List.append_nil, List.foldl_append]
    have hfin : (rs.foldl laterOf (0, "")).1 ≤ tn :=
      foldl_laterOf_le rs (0, "") tn (Nat.zero_le tn) hbound
    simp only [List.foldl_cons, List.foldl_nil]
    rw [laterOf_of_le hfin]

/-- Witness for `showError_spec`: a single report at time 0 is still
shown at 4999 ms. -/
theorem showError_spec_witness :
    List.Pairwise (fun a b : Nat × String => a.1 < b.1) [(0, "boom")] ∧
    slotAt [(0, "boom")] 4999 = "boom" := by
  refine ⟨List.pairwise_singleton _ _, ?_⟩
  have h := showError_spec.2 [] 0 "boom" 4999 (by simp)
    (by decide) (by decide)
  simpa using h

end MovieApp
